import Mathlib

/-!
# Verification of the moleculer-db-adapter-mongoose adapter

Shallow embedding of `src/index.js` (class `MongooseDbAdapter`).

Modelling conventions:
* JavaScript values reachable by the adapter's duck-typed branching are the
  inductive type `Value`: `undef`/`vnull` for `undefined`/`null`, primitive
  strings, integers and booleans, a BSON `ObjectId` (carrying its hex string;
  it exposes `toHexString` and `toString`), the result of
  `new mongoose.Schema.Types.ObjectId(id)` (constructor `schemaObjectId`), and
  opaque objects `vobj tag` (mongoose models, schemas, plain objects).
* JavaScript truthiness (`if (x)`) is the boolean `truthy`.  Every value
  except `null`/`undefined` exposes `.toString` (primitives are boxed), which
  is `hasToString`; only BSON ObjectIds expose `.toHexString`
  (`hasToHexString`).
* Plain records (`{...}` objects) are total functions `String → Value`,
  with `Value.undef` standing for an absent key; `entity[f] !== undefined`
  is `r f ≠ Value.undef`, property assignment is `Record.set`, `delete` is
  `Record.erase`.
* In-place mutation is made observable by letting each transform return a
  pair `(returned record, state of the input object after the call)`:
  `beforeSaveTransformID` copies (`Object.assign({}, entity)`), so the input
  state is unchanged; `afterRetrieveTransformID` mutates its argument, so the
  input state equals the returned record.
* `init` is a pure function from the service's declared configuration to
  `Except String AdapterInit`; `throw new ServiceSchemaError(msg)` is
  `Except.error msg`.  It performs no connection call (its type mentions no
  connection outcome), matching the source, which only reads the service
  schema.
* `connect` is parametrised by the outcome of the single underlying
  `mongoose.connect(uri, opts)` call; it returns the settled promise, the
  adapter state after the call, and the list of underlying connect attempts
  made.  The statement `this.model = mongoose.model(this.modelName,
  this.schema)` on line 79 of the source sits after the `return` statement
  and therefore never executes, so it does not appear in the embedding.
-/

/-- JavaScript values the adapter can encounter. -/
inductive Value where
  | undef
  | vnull
  | vstr (s : String)
  | vnum (n : Int)
  | vbool (b : Bool)
  | objectId (hex : String)
  | schemaObjectId (s : String)
  | vobj (tag : String)
  deriving DecidableEq, Repr

/-- JavaScript truthiness: `undefined`, `null`, `""`, `0` and `false` are
falsy; every object is truthy. -/
def truthy : Value → Bool
  | .undef => false
  | .vnull => false
  | .vstr s => s ≠ ""
  | .vnum n => n ≠ 0
  | .vbool b => b
  | .objectId _ => true
  | .schemaObjectId _ => true
  | .vobj _ => true

/-- Does the value expose a `.toString` capability?  In JavaScript every
value except `null` and `undefined` does (primitives are boxed). -/
def hasToString : Value → Bool
  | .undef => false
  | .vnull => false
  | _ => true

/-- Does the value expose a `.toHexString` capability?  Only BSON ObjectIds
do. -/
def hasToHexString : Value → Bool
  | .objectId _ => true
  | _ => false

/-- Result of invoking `.toString()` (meaningful when `hasToString`). -/
def jsToString : Value → String
  | .undef => "undefined"
  | .vnull => "null"
  | .vstr s => s
  | .vnum n => toString n
  | .vbool b => if b then "true" else "false"
  | .objectId hex => hex
  | .schemaObjectId _ => "[object Object]"
  | .vobj _ => "[object Object]"

/-- Result of invoking `.toHexString()` (meaningful when `hasToHexString`). -/
def toHexString : Value → String
  | .objectId hex => hex
  | _ => ""

/-- Is the value a primitive string (`typeof id == "string"`)? -/
def isJsString : Value → Bool
  | .vstr _ => true
  | _ => false

/-- A plain record: keys to values, `Value.undef` marking an absent key. -/
def Record := String → Value

/-- Property read `r[k]`. -/
def Record.get (r : Record) (k : String) : Value := r k

/-- Property assignment `r[k] = v`. -/
def Record.set (r : Record) (k : String) (v : Value) : Record :=
  fun k2 => if k2 = k then v else r k2

/-- Property deletion `delete r[k]`. -/
def Record.erase (r : Record) (k : String) : Record :=
  fun k2 => if k2 = k then Value.undef else r k2

/-- The empty record `{}`. -/
def emptyRecord : Record := fun _ => Value.undef

/-- `mongoose.Types.ObjectId.isValid` on a string argument: a 24-character
hex string or any 12-character string. -/
def isValidObjectIdString (s : String) : Bool :=
  (s.data.length == 24 && s.data.all (fun c =>
    c.isDigit || ('a' ≤ c && c ≤ 'f') || ('A' ≤ c && c ≤ 'F')))
  || s.data.length == 12

/-- `stringToObjectID` (src/index.js:155-159): a string passing
`mongoose.Types.ObjectId.isValid` is converted via
`new mongoose.Schema.Types.ObjectId(id)`; anything else is returned
unchanged.  The `typeof` test comes first, so the validity check is only
ever evaluated on strings (here `isValidObjectIdString` is only applicable
to a `String` at all). -/
def stringToObjectID (id : Value) : Value :=
  match id with
  | .vstr s => if isValidObjectIdString s then .schemaObjectId s else .vstr s
  | other => other

/-- `objectIDToString` (src/index.js:167-171): `if (id && id.toString)
return id.toString(); return id;`.  The `id &&` conjunct means falsy values
pass through even though they expose `.toString`. -/
def objectIDToString (id : Value) : Value :=
  if truthy id && hasToString id then .vstr (jsToString id) else id

/-- `beforeSaveTransformID` (src/index.js:123-132).  Returns the pair
(returned record, state of the input object after the call); the source
copies the input with `Object.assign({}, entity)` and never writes to it,
so the second component is always the input. -/
def beforeSaveTransformID (entity : Record) (idField : String) : Record × Record :=
  if idField ≠ "_id" ∧ entity idField ≠ Value.undef then
    let newEntity : Record := entity
    let newEntity := newEntity.set "_id" (stringToObjectID (entity idField))
    let newEntity := newEntity.erase idField
    (newEntity, entity)
  else
    (entity, entity)

/-- `afterRetrieveTransformID` (src/index.js:141-147).  Returns the pair
(returned record, state of the input object after the call); the source
assigns and deletes on the input object itself and returns it, so both
components coincide. -/
def afterRetrieveTransformID (entity : Record) (idField : String) : Record × Record :=
  if idField ≠ "_id" then
    let e1 := entity.set idField (objectIDToString (entity "_id"))
    let e2 := e1.erase "_id"
    (e2, e2)
  else
    (entity, entity)

/-- A mongoose document as the adapter sees it: a `toJSON` serialization
and the raw `_id` value. -/
structure Entity where
  json : Record
  rawId : Value

/-- `entityToObject` (src/index.js:106-114): serialize via `toJSON()`, then
overwrite `json._id` from `entity._id.toHexString()` when `entity._id` is
truthy and exposes it, else from `entity._id.toString()` when `entity._id`
is truthy and exposes that. -/
def entityToObject (e : Entity) : Record :=
  if truthy e.rawId && hasToHexString e.rawId then
    e.json.set "_id" (.vstr (toHexString e.rawId))
  else if truthy e.rawId && hasToString e.rawId then
    e.json.set "_id" (.vstr (jsToString e.rawId))
  else
    e.json

/-- Which identifier-conversion capabilities `entityToObject` invokes on
`entity._id`, following the same guards as the source: the first branch
calls `toHexString` once, the second calls `toString` once, otherwise
neither is called. -/
def entityToObjectCalls (e : Entity) : List String :=
  if truthy e.rawId && hasToHexString e.rawId then
    ["toHexString"]
  else if truthy e.rawId && hasToString e.rawId then
    ["toString"]
  else
    []

/-- The service's declared schema configuration: the values of
`service.schema.model`, `service.schema.schema` and
`service.schema.modelName` (`Value.undef` when not declared). -/
structure ServiceConfig where
  model : Value
  schema : Value
  modelName : Value
  deriving DecidableEq, Repr

/-- The adapter fields `init` may write: `this.model`, `this.schema`,
`this.modelName`.  On a fresh adapter all three are `undefined`. -/
structure AdapterInit where
  model : Value
  schema : Value
  modelName : Value
  deriving DecidableEq, Repr

/-- `init` (src/index.js:41-59) on a fresh adapter: take the `model` branch
when `service.schema.model` is truthy; otherwise, when
`service.schema.schema` is truthy, require a truthy `modelName` and store
the schema pair; finally throw when neither `this.model` nor `this.schema`
got set. -/
def init (cfg : ServiceConfig) : Except String AdapterInit :=
  let a0 : AdapterInit := ⟨Value.undef, Value.undef, Value.undef⟩
  let step1 : Except String AdapterInit :=
    if truthy cfg.model then
      Except.ok { a0 with model := cfg.model }
    else if truthy cfg.schema then
      if !truthy cfg.modelName then
        Except.error "`modelName` is required when `schema` is given in schema of service!"
      else
        Except.ok { a0 with schema := cfg.schema, modelName := cfg.modelName }
    else
      Except.ok a0
  match step1 with
  | Except.error e => Except.error e
  | Except.ok a =>
    if !truthy a.model && !truthy a.schema then
      Except.error "Missing `model` or `schema` definition in schema of service!"
    else
      Except.ok a

/-- Outcome of the single underlying `mongoose.connect` attempt. -/
inductive ConnectOutcome where
  | success
  | failure (cause : String)
  deriving DecidableEq, Repr

/-- A call made to `mongoose.connect`, with the arguments passed. -/
structure MongooseCall where
  uri : String
  opts : Value
  deriving DecidableEq, Repr

/-- The connection handle stored in `this.db`, with the event names whose
logging handlers were registered on it. -/
structure Db where
  handlers : List String
  deriving DecidableEq, Repr

/-- Adapter state relevant to `connect`: constructor arguments, the fields
written by `init`, and the connection handle. -/
structure AdapterState where
  uri : String
  opts : Value
  model : Value
  schema : Value
  modelName : Value
  db : Option Db
  deriving DecidableEq, Repr

/-- `connect` (src/index.js:68-80): `return mongoose.connect(this.uri,
this.opts).then(...)`.  On success the `.then` callback stores
`mongoose.connection` in `this.db` and registers the three logging
handlers; on failure the rejection propagates unchanged (there is no
rejection handler).  Exactly one underlying connect call is made, and the
trailing `this.model = mongoose.model(this.modelName, this.schema)`
(line 79) sits after the `return` and never executes, so `model`, `schema`
and `modelName` are untouched in every outcome. -/
def connect (a : AdapterState) (outcome : ConnectOutcome) :
    Except String Unit × AdapterState × List MongooseCall :=
  let call : MongooseCall := ⟨a.uri, a.opts⟩
  match outcome with
  | .success =>
      (Except.ok (),
       { a with db := some ⟨["disconnected", "error", "reconnect"]⟩ },
       [call])
  | .failure cause =>
      (Except.error cause, a, [call])

/-! ## Helper lemmas -/

/-- A truthy value is not `undefined`. -/
theorem truthy_ne_undef {v : Value} (h : truthy v = true) : v ≠ Value.undef := by
  intro he; subst he; simp [truthy] at h

/-- Every truthy value exposes `.toString` (only `null`/`undefined` lack it,
and both are falsy). -/
theorem truthy_hasToString {v : Value} (h : truthy v = true) : hasToString v = true := by
  cases v <;> simp_all [truthy, hasToString]

/-- `truthy` evaluates to `false` on `undefined`. -/
theorem truthy_undef : truthy Value.undef = false := rfl

/-- A value exposing `.toHexString` also exposes `.toString`. -/
theorem hasToHexString_hasToString {v : Value} (h : hasToHexString v = true) :
    hasToString v = true := by
  cases v <;> simp_all [hasToHexString, hasToString]

/-! ## Sample values used by the witnesses -/

/-- The record `{myID: "123", title: "t"}`. -/
def sampleEntry : Record :=
  (emptyRecord.set "myID" (Value.vstr "123")).set "title" (Value.vstr "t")

/-- The record `{_id: ObjectId("aabbccddeeff001122334455"), title: "t"}`. -/
def sampleRetrieved : Record :=
  (emptyRecord.set "_id" (Value.objectId "aabbccddeeff001122334455")).set "title"
    (Value.vstr "t")

/-- A document whose `_id` is a BSON ObjectId. -/
def sampleDoc : Entity :=
  ⟨(emptyRecord.set "_id" (Value.objectId "aabbccddeeff001122334455")).set "title"
      (Value.vstr "t"),
   Value.objectId "aabbccddeeff001122334455"⟩

/-- A document whose `_id` is the (falsy) number `0`. -/
def entityZeroId : Entity :=
  ⟨emptyRecord.set "_id" (Value.vnum 0), Value.vnum 0⟩

/-- Service config declaring `model`, `schema` and no `modelName`. -/
def cfgModelSchemaNoName : ServiceConfig :=
  ⟨Value.vobj "model", Value.vobj "schema", Value.undef⟩

/-- Service config declaring only `schema` (no `modelName`). -/
def cfgSchemaNoName : ServiceConfig :=
  ⟨Value.undef, Value.vobj "schema", Value.undef⟩

/-- Service config declaring only `model`. -/
def cfgModelOnly : ServiceConfig :=
  ⟨Value.vobj "model", Value.undef, Value.undef⟩

/-- Adapter state after an `init` that stored a pending schema pair. -/
def samplePendingState : AdapterState :=
  ⟨"mongodb://server", Value.undef, Value.undef, Value.vobj "schema",
   Value.vstr "Posts", none⟩

/-! ## Claim theorems -/

/-- C1: when `idFieldName` differs from `"_id"` and `entry[idFieldName]` is
defined, `beforeSaveTransformID` returns a new record equal to the input
except that `"_id"` holds `stringToObjectID(entry[idFieldName])` and the
key `idFieldName` is removed, while the input object is left unmodified;
when `idFieldName` is `"_id"` or the value is undefined, the input is
returned unchanged. -/
theorem beforeSaveTransformID_spec (entity : Record) (idField : String) :
    (idField ≠ "_id" → entity idField ≠ Value.undef →
      ((beforeSaveTransformID entity idField).1.get "_id"
          = stringToObjectID (entity idField)
        ∧ (beforeSaveTransformID entity idField).1.get idField = Value.undef
        ∧ (∀ k, k ≠ "_id" → k ≠ idField →
            (beforeSaveTransformID entity idField).1.get k = entity k)
        ∧ (beforeSaveTransformID entity idField).2 = entity))
    ∧ ((idField = "_id" ∨ entity idField = Value.undef) →
        beforeSaveTransformID entity idField = (entity, entity)) := by
  constructor
  · intro h1 h2
    have hcond : idField ≠ "_id" ∧ entity idField ≠ Value.undef := ⟨h1, h2⟩
    have hne : ¬("_id" = idField) := fun h => h1 h.symm
    refine ⟨?_, ?_, ?_, ?_⟩
    · simp [beforeSaveTransformID, if_pos hcond, Record.get, Record.set, Record.erase, hne]
    · simp [beforeSaveTransformID, if_pos hcond, Record.get, Record.set, Record.erase]
    · intro k hk1 hk2
      simp [beforeSaveTransformID, if_pos hcond, Record.get, Record.set, Record.erase,
        hk1, hk2]
    · simp [beforeSaveTransformID, if_pos hcond]
  · intro h
    rcases h with h | h
    · subst h
      simp [beforeSaveTransformID]
    · rw [beforeSaveTransformID, if_neg (fun hc => hc.2 h)]

/-- C2: when `idFieldName` differs from `"_id"`, `afterRetrieveTransformID`
updates the record in place, setting `entry[idFieldName]` to
`objectIDToString(entry["_id"])`, deleting `"_id"`, and returning the same
(mutated) object — the post-call state of the input equals the returned
record; when `idFieldName` is `"_id"`, the input is returned unchanged with
no mutation. -/
theorem afterRetrieveTransformID_spec (entity : Record) (idField : String) :
    (idField ≠ "_id" →
      ((afterRetrieveTransformID entity idField).1.get idField
          = objectIDToString (entity "_id")
        ∧ (afterRetrieveTransformID entity idField).1.get "_id" = Value.undef
        ∧ (∀ k, k ≠ idField → k ≠ "_id" →
            (afterRetrieveTransformID entity idField).1.get k = entity k)
        ∧ (afterRetrieveTransformID entity idField).2
            = (afterRetrieveTransformID entity idField).1))
    ∧ (idField = "_id" → afterRetrieveTransformID entity idField = (entity, entity)) := by
  constructor
  · intro h1
    refine ⟨?_, ?_, ?_, ?_⟩
    · simp [afterRetrieveTransformID, if_pos h1, Record.get, Record.set, Record.erase, h1]
    · simp [afterRetrieveTransformID, if_pos h1, Record.get, Record.set, Record.erase]
    · intro k hk1 hk2
      simp [afterRetrieveTransformID, if_pos h1, Record.get, Record.set, Record.erase,
        hk1, hk2]
    · simp [afterRetrieveTransformID, if_pos h1]
  · intro h
    rw [afterRetrieveTransformID, if_neg (fun hc => hc h)]

/-- C10: `beforeSaveTransformID` is idempotent — applying it again to its
own result with the same field name returns that result unchanged (and
leaves it unmutated). -/
theorem beforeSaveTransformID_idempotent (entity : Record) (idField : String) :
    beforeSaveTransformID (beforeSaveTransformID entity idField).1 idField
      = ((beforeSaveTransformID entity idField).1,
         (beforeSaveTransformID entity idField).1) := by
  have hguard : ¬(idField ≠ "_id" ∧
      (beforeSaveTransformID entity idField).1 idField ≠ Value.undef) := by
    by_cases h1 : idField = "_id"
    · exact fun hc => hc.1 h1
    · by_cases h2 : entity idField = Value.undef
      · exact fun hc => hc.2 (by simp [beforeSaveTransformID, h1, h2])
      · exact fun hc => hc.2 (by
          simp [beforeSaveTransformID, if_pos (And.intro h1 h2), Record.set, Record.erase])
  conv_lhs => rw [beforeSaveTransformID]
  rw [if_neg hguard]

/-- C3 counterexample: a service declaring `model`, declaring `schema`, and
omitting `modelName` refutes the claimed equivalence — the claim's
right-hand side holds (schema declared, modelName omitted), yet `init`
succeeds, because the `model` branch is taken first and the `schema` branch
is never inspected. -/
theorem init_claimC3_counterexample :
    (truthy cfgModelSchemaNoName.model = true
      ∧ truthy cfgModelSchemaNoName.schema = true
      ∧ truthy cfgModelSchemaNoName.modelName = false)
    ∧ ¬(init cfgModelSchemaNoName).isOk = false := by
  decide

/-- C3 (amended): `init` raises a `ServiceSchemaError` if and only if the
service does not declare `model` and either declares `schema` while
omitting `modelName`, or declares neither `model` nor `schema`; when
`model` is declared, `schema`/`modelName` are ignored and no error is
raised.  `init` performs no connection call at all (its type involves no
connection outcome), so the error precedes any database side effect. -/
theorem init_error_iff (cfg : ServiceConfig) :
    (init cfg).isOk = false ↔
      ((truthy cfg.model = false ∧ truthy cfg.schema = true
          ∧ truthy cfg.modelName = false)
        ∨ (truthy cfg.model = false ∧ truthy cfg.schema = false)) := by
  cases hm : truthy cfg.model <;> cases hs : truthy cfg.schema <;>
    cases hn : truthy cfg.modelName <;>
      simp [init, hm, hs, hn, truthy_undef, Except.isOk, Except.toBool]

/-- C3 witness: a service declaring only `schema` (no `modelName`) makes
`init` fail. -/
theorem init_error_iff_witness : (init cfgSchemaNoName).isOk = false :=
  (init_error_iff cfgSchemaNoName).mpr (Or.inl (by decide))

/-- C4: whenever `init` succeeds, exactly one of `this.model` or the
pending pair `this.schema`/`this.modelName` is set — never both, never
neither; in particular a service declaring `model` yields a set model with
`schema` and `modelName` unset. -/
theorem init_resolves_exactly_one (cfg : ServiceConfig) (a : AdapterInit)
    (h : init cfg = Except.ok a) :
    ((a.model ≠ Value.undef ∧ a.schema = Value.undef ∧ a.modelName = Value.undef)
      ∨ (a.model = Value.undef ∧ a.schema ≠ Value.undef ∧ a.modelName ≠ Value.undef))
    ∧ (truthy cfg.model = true →
        (a.model = cfg.model ∧ a.schema = Value.undef ∧ a.modelName = Value.undef)) := by
  by_cases hm : truthy cfg.model = true
  · have ha : AdapterInit.mk cfg.model Value.undef Value.undef = a := by
      simpa [init, hm, truthy_undef] using h
    subst ha
    exact ⟨Or.inl ⟨truthy_ne_undef hm, rfl, rfl⟩, fun _ => ⟨rfl, rfl, rfl⟩⟩
  · have hm2 : truthy cfg.model = false := by simpa using hm
    by_cases hs : truthy cfg.schema = true
    · by_cases hn : truthy cfg.modelName = true
      · have ha : AdapterInit.mk Value.undef cfg.schema cfg.modelName = a := by
          simpa [init, hm2, hs, hn, truthy_undef] using h
        subst ha
        refine ⟨Or.inr ⟨rfl, truthy_ne_undef hs, truthy_ne_undef hn⟩, fun hc => ?_⟩
        rw [hm2] at hc
        cases hc
      · have hn2 : truthy cfg.modelName = false := by simpa using hn
        exact absurd h (by simp [init, hm2, hs, hn2])
    · have hs2 : truthy cfg.schema = false := by simpa using hs
      exact absurd h (by simp [init, hm2, hs2, truthy_undef])

/-- C5 counterexample: an entity whose raw `_id` is the number `0` refutes
the claim — `0` exposes a generic string conversion (`(0).toString()` is
`"0"`), yet `entityToObject` leaves the serialized identifier as-is,
because the source guards both branches with the truthiness of
`entity._id` and `0` is falsy. -/
theorem entityToObject_claimC5_counterexample :
    hasToString (Value.vnum 0) = true
    ∧ hasToHexString (Value.vnum 0) = false
    ∧ (entityToObject entityZeroId).get "_id" = Value.vnum 0
    ∧ (entityToObject entityZeroId).get "_id" ≠ Value.vstr (jsToString (Value.vnum 0)) := by
  refine ⟨rfl, rfl, rfl, ?_⟩
  intro h
  cases h

/-- C5 (amended): `entityToObject` serializes via `toJSON` and then
normalizes `_id` with a two-tier preference guarded by truthiness: when the
raw identifier is truthy and exposes `toHexString`, that conversion is used
(and `toString` is never invoked); when it is truthy, lacks `toHexString`
and exposes `toString`, that is used; otherwise — including any falsy raw
identifier, even one exposing `toString` — the serialized value is left
as-is and neither conversion is invoked. -/
theorem entityToObject_spec (e : Entity) :
    (truthy e.rawId = true → hasToHexString e.rawId = true →
      (entityToObject e = e.json.set "_id" (Value.vstr (toHexString e.rawId))
        ∧ entityToObjectCalls e = ["toHexString"]))
    ∧ (truthy e.rawId = true → hasToHexString e.rawId = false →
        hasToString e.rawId = true →
      (entityToObject e = e.json.set "_id" (Value.vstr (jsToString e.rawId))
        ∧ entityToObjectCalls e = ["toString"]))
    ∧ ((truthy e.rawId = false ∨ hasToString e.rawId = false) →
      (entityToObject e = e.json ∧ entityToObjectCalls e = [])) := by
  refine ⟨?_, ?_, ?_⟩
  · intro ht hx
    constructor <;> simp [entityToObject, entityToObjectCalls, ht, hx]
  · intro ht hx hts
    constructor <;> simp [entityToObject, entityToObjectCalls, ht, hx, hts]
  · intro h
    rcases h with h | h
    · constructor <;> simp [entityToObject, entityToObjectCalls, h]
    · have hx : hasToHexString e.rawId = false := by
        cases hh : hasToHexString e.rawId
        · rfl
        · rw [hasToHexString_hasToString hh] at h
          cases h
      constructor <;> simp [entityToObject, entityToObjectCalls, h, hx]

/-- C6 counterexample: the number `0` exposes a string-conversion
capability, yet `objectIDToString 0` returns `0` itself, not `"0"` — the
source's `id &&` truthiness guard short-circuits on falsy values, refuting
the claim that the conversion is invoked for every value exposing it. -/
theorem objectIDToString_claimC6_counterexample :
    hasToString (Value.vnum 0) = true
    ∧ objectIDToString (Value.vnum 0) = Value.vnum 0
    ∧ objectIDToString (Value.vnum 0) ≠ Value.vstr (jsToString (Value.vnum 0)) := by
  refine ⟨rfl, rfl, ?_⟩
  intro h
  cases h

/-- C6 (amended): `objectIDToString` returns `id.toString()` exactly when
`id` is truthy (every truthy value exposes `toString`); every falsy `id` —
`undefined`, `null`, `0`, `""`, `false` — is returned unchanged, even
though `0`, `""` and `false` expose a string conversion. -/
theorem objectIDToString_spec (id : Value) :
    (truthy id = true → objectIDToString id = Value.vstr (jsToString id))
    ∧ (truthy id = false → objectIDToString id = id) := by
  constructor
  · intro ht
    simp [objectIDToString, ht, truthy_hasToString ht]
  · intro ht
    simp [objectIDToString, ht]

/-- C7: `stringToObjectID` converts exactly the strings accepted by the
identifier library's validity check (to the value of
`new mongoose.Schema.Types.ObjectId(id)`); any invalid string and any
non-string value is returned unchanged, and for non-strings the validity
check can never be consulted (the `typeof` test short-circuits first; in
the embedding the check is only applicable to strings). -/
theorem stringToObjectID_spec :
    (∀ s : String,
      (isValidObjectIdString s = true →
        stringToObjectID (Value.vstr s) = Value.schemaObjectId s)
      ∧ (isValidObjectIdString s = false →
        stringToObjectID (Value.vstr s) = Value.vstr s))
    ∧ (∀ id : Value, isJsString id = false → stringToObjectID id = id) := by
  constructor
  · intro s
    constructor
    · intro hv
      simp [stringToObjectID, hv]
    · intro hv
      simp [stringToObjectID, hv]
  · intro id hid
    cases id <;> first
      | rfl
      | (cases hid)

/-- C8: for any adapter state holding a pending schema and model name,
`connect` never constructs or assigns `this.model` — the model-construction
statement after the `return` is unreachable, so `model`, `schema` and
`modelName` are exactly as `init` left them, for every connection
outcome. -/
theorem connect_preserves_model_fields (a : AdapterState) (o : ConnectOutcome)
    (_hs : a.schema ≠ Value.undef) (_hn : a.modelName ≠ Value.undef) :
    ((connect a o).2.1).model = a.model
    ∧ ((connect a o).2.1).schema = a.schema
    ∧ ((connect a o).2.1).modelName = a.modelName := by
  cases o <;> exact ⟨rfl, rfl, rfl⟩

/-- C9: when the single underlying connection attempt fails, `connect`
returns a rejected future carrying the underlying cause unchanged, makes
exactly one underlying connect call (no retry), and leaves the adapter
state untouched. -/
theorem connect_failure_propagates (a : AdapterState) (cause : String) :
    connect a (ConnectOutcome.failure cause)
      = (Except.error cause, a, [⟨a.uri, a.opts⟩]) := rfl

/-! ## Witnesses -/

/-- C1 witness: on `{myID: "123", title: "t"}` with field `"myID"`, the
hypotheses hold and the input object is left unmodified while `"myID"` is
absent from the result. -/
theorem beforeSaveTransformID_spec_witness :
    ("myID" ≠ "_id" ∧ sampleEntry "myID" ≠ Value.undef)
    ∧ (beforeSaveTransformID sampleEntry "myID").1.get "myID" = Value.undef
    ∧ (beforeSaveTransformID sampleEntry "myID").2 = sampleEntry := by
  refine ⟨⟨by decide, by decide⟩, ?_, ?_⟩
  · exact ((beforeSaveTransformID_spec sampleEntry "myID").1 (by decide) (by decide)).2.1
  · exact ((beforeSaveTransformID_spec sampleEntry "myID").1 (by decide) (by decide)).2.2.2

/-- C2 witness: on `{_id: ObjectId(...), title: "t"}` with field `"myID"`,
the record is rewritten in place and the returned record is the post-call
state of the input. -/
theorem afterRetrieveTransformID_spec_witness :
    ("myID" : String) ≠ "_id"
    ∧ (afterRetrieveTransformID sampleRetrieved "myID").1.get "_id" = Value.undef
    ∧ (afterRetrieveTransformID sampleRetrieved "myID").2
        = (afterRetrieveTransformID sampleRetrieved "myID").1 := by
  refine ⟨by decide, ?_, ?_⟩
  · exact ((afterRetrieveTransformID_spec sampleRetrieved "myID").1 (by decide)).2.1
  · exact ((afterRetrieveTransformID_spec sampleRetrieved "myID").1 (by decide)).2.2.2

/-- C4 witness: a service declaring only `model` yields a set model with
`schema` and `modelName` unset. -/
theorem init_resolves_exactly_one_witness :
    (AdapterInit.mk (Value.vobj "model") Value.undef Value.undef).model
        = cfgModelOnly.model
    ∧ (AdapterInit.mk (Value.vobj "model") Value.undef Value.undef).schema = Value.undef
    ∧ (AdapterInit.mk (Value.vobj "model") Value.undef Value.undef).modelName
        = Value.undef :=
  (init_resolves_exactly_one cfgModelOnly
    (AdapterInit.mk (Value.vobj "model") Value.undef Value.undef) rfl).2 rfl

/-- C5 witness: a document whose `_id` is a BSON ObjectId takes the
hex-conversion tier, and the generic conversion is never invoked. -/
theorem entityToObject_spec_witness :
    entityToObject sampleDoc
      = sampleDoc.json.set "_id" (Value.vstr "aabbccddeeff001122334455")
    ∧ entityToObjectCalls sampleDoc = ["toHexString"] :=
  (entityToObject_spec sampleDoc).1 (by decide) (by decide)

/-- C6 witness: a truthy ObjectId is converted to its string form, and the
falsy `false` passes through unchanged. -/
theorem objectIDToString_spec_witness :
    objectIDToString (Value.objectId "aabbccddeeff001122334455")
      = Value.vstr "aabbccddeeff001122334455"
    ∧ objectIDToString (Value.vbool false) = Value.vbool false :=
  ⟨(objectIDToString_spec (Value.objectId "aabbccddeeff001122334455")).1 (by decide),
   (objectIDToString_spec (Value.vbool false)).2 (by decide)⟩

/-- C7 witness: a valid 24-hex-character string is converted, an invalid
string passes through, and a non-string object passes through verbatim. -/
theorem stringToObjectID_spec_witness :
    stringToObjectID (Value.vstr "507f191e810c19729de860ea")
      = Value.schemaObjectId "507f191e810c19729de860ea"
    ∧ stringToObjectID (Value.vstr "xyz") = Value.vstr "xyz"
    ∧ stringToObjectID (Value.vobj "opts") = Value.vobj "opts" :=
  ⟨(stringToObjectID_spec.1 "507f191e810c19729de860ea").1 (by decide),
   (stringToObjectID_spec.1 "xyz").2 (by decide),
   stringToObjectID_spec.2 (Value.vobj "opts") (by decide)⟩

/-- C8 witness: on a state holding a pending schema pair, a successful
`connect` leaves `model`, `schema` and `modelName` untouched. -/
theorem connect_preserves_model_fields_witness :
    ((connect samplePendingState ConnectOutcome.success).2.1).model
        = samplePendingState.model
    ∧ ((connect samplePendingState ConnectOutcome.success).2.1).schema
        = samplePendingState.schema
    ∧ ((connect samplePendingState ConnectOutcome.success).2.1).modelName
        = samplePendingState.modelName :=
  connect_preserves_model_fields samplePendingState ConnectOutcome.success
    (by decide) (by decide)
